import Mathlib

/-!
Shallow embedding of the validation engine of `database_health_checks`
(rule resolution, the generic threshold validator, selected custom-logic
checks, the engine's per-rule loop and the result summary), together with
theorems settling the specification claims about it.

Conventions of the embedding:
* Python scalar values that flow through rules and query results
  (`None`, `bool`, `int`, `str`) are modelled by the inductive type `Value`.
  Python `float` values do not occur in any claim under scrutiny and are
  outside the model.
* A Python callable that may raise is modelled as a function into
  `Except String α`, the payload being the exception message rendered by
  an f-string such as `f"Error executing check: {e}"`.
* A database cursor is modelled by the outcome of its fetch calls: either
  an exception or the fetched row(s).  `fetchone` yields
  `Option (List Value)` (`None` or a tuple of column values), `fetchall`
  yields a list of rows.
-/

namespace DBHC

/-- Python scalar values (`None`, `bool`, `int`, `str`) appearing as rule
values, thresholds and fetched column values. -/
inductive Value where
  | none : Value
  | bool : Bool → Value
  | int : Int → Value
  | str : String → Value
deriving DecidableEq

/-- Python truthiness of a `Value` (`bool(v)`): `None` and `False` are falsy,
an `int` is truthy iff nonzero, a `str` iff nonempty. -/
def truthy : Value → Bool
  | Value.none => false
  | Value.bool b => b
  | Value.int n => n != 0
  | Value.str s => s != ""

/-- Python `str(v)` on the modelled scalars. -/
def pyStr : Value → String
  | Value.none => "None"
  | Value.bool true => "True"
  | Value.bool false => "False"
  | Value.int n => toString n
  | Value.str s => s

/-- Python `str.strip()`: drop leading and trailing whitespace.  (Defined on
character lists rather than with `String.trim` so that proofs can evaluate
it by kernel reduction.) -/
def pyStrip (s : String) : String :=
  String.mk (((s.toList.dropWhile Char.isWhitespace).reverse.dropWhile
    Char.isWhitespace).reverse)

/-- Python `str.upper()`, character-wise (the values compared in this
repository are ASCII). -/
def pyUpper (s : String) : String :=
  String.mk (s.toList.map Char.toUpper)

/-- Python `str.lower()`, character-wise. -/
def pyLower (s : String) : String :=
  String.mk (s.toList.map Char.toLower)

/-- Python `s.startswith(pre)`. -/
def pyStartsWith (s pre : String) : Bool :=
  pre.toList.isPrefixOf s.toList

/-- Helper: interpret a nonempty list of decimal digits as a natural number. -/
def digitsToNat (cs : List Char) : Nat :=
  cs.foldl (fun a c => a * 10 + (c.toNat - 48)) 0

/-- Helper: a nonempty, all-decimal-digit character list. -/
def isDigits (cs : List Char) : Bool :=
  !cs.isEmpty && cs.all Char.isDigit

/-- Python `int(s)` on a string: surrounding whitespace is stripped, an
optional sign is allowed, then decimal digits; anything else raises
`ValueError` (modelled as `none`).  (Digit-group underscores, which Python
also accepts, do not occur in this repository's rule data and are not
modelled.) -/
def pyIntOfString (s : String) : Option Int :=
  match (pyStrip s).toList with
  | '-' :: rest => if isDigits rest then some (-(digitsToNat rest : Int)) else none
  | '+' :: rest => if isDigits rest then some ((digitsToNat rest : Int)) else none
  | rest => if isDigits rest then some ((digitsToNat rest : Int)) else none

/-- The numeric coercion performed by `ValidationCheck._validate` for
MINIMUM/MAXIMUM (`validation_check.py` lines 142-161): a string is converted
with `int(...)` (`ValueError` on failure), a bool participates in the
comparison as 0/1, an int stands for itself, and `None` makes the
comparison raise `TypeError`.  `none` means the coercion-or-comparison
fails, which the source catches and turns into `False`. -/
def numForCompare : Value → Option Int
  | Value.str s => pyIntOfString s
  | Value.int n => some n
  | Value.bool b => some (if b then 1 else 0)
  | Value.none => none

/-- `ValidationType` from `checks/validation_check.py` lines 11-17. -/
inductive ValidationType where
  | REQUIRED : ValidationType
  | MINIMUM : ValidationType
  | MAXIMUM : ValidationType
  | EQUALS : ValidationType
deriving DecidableEq

/-- `CheckResult` (`models/check_result.py`): the fields the claims are
about.  `actual_value` and `expected_value` are stored stringified by
`_create_result`; the report-grouping `category` field plays no role in any
claim and is omitted. -/
structure CheckResult where
  check_name : String
  database : String
  passed : Bool
  actual_value : String
  expected_value : String
  message : String
  is_override : Bool
deriving DecidableEq

/-- The identity fields shared by every check (`CheckBaseModel.__init__`). -/
structure CheckMeta where
  name : String
  check_name : String
  description : String
deriving DecidableEq

/-- `CheckBaseModel._create_result` (`models/check_base_model.py` lines
43-74): stringifies actual/expected with `str()`, defaults the message to
the check description when the check failed and no message was given, and
leaves `is_override` at its pydantic default `False`. -/
def createResult (meta : CheckMeta) (database : String) (passed : Bool)
    (actual expected : Value) (message : String) : CheckResult :=
  { check_name := meta.check_name
    database := database
    passed := passed
    actual_value := pyStr actual
    expected_value := pyStr expected
    message := if message = "" ∧ passed = false then meta.description else message
    is_override := false }

/-- A Python callable on scalars that may raise. -/
def PyFun : Type := Value → Except String Value

/-- `ValidationCheck` (`checks/validation_check.py` lines 20-50): the
generic threshold validator.  The SQL `query` text is carried but never
interpreted; the cursor model below supplies the fetch outcome directly. -/
structure ValidationCheck where
  meta : CheckMeta
  query : String
  validation_type : ValidationType
  threshold : Value
  value_normalizer : Option PyFun

/-- Line 72 of `checks/validation_check.py`:
`threshold = rule_value if rule_value is not None else self.threshold`. -/
def effectiveThreshold (c : ValidationCheck) (rule_value : Value) : Value :=
  if rule_value ≠ Value.none then rule_value else c.threshold

/-- Apply an optional callable (`if self.value_normalizer: ...`,
`if transform: ...`); absent means the value passes through. -/
def applyOpt (f : Option PyFun) (v : Value) : Except String Value :=
  match f with
  | Option.none => Except.ok v
  | Option.some g => g v

/-- `ValidationCheck._get_expected_value` (lines 164-181). -/
def getExpectedValue (c : ValidationCheck) (threshold : Value) : String :=
  match c.validation_type with
  | ValidationType.REQUIRED => if truthy threshold then "Set/Enabled" else "Not Required"
  | ValidationType.EQUALS => pyStr threshold
  | ValidationType.MINIMUM => ">= " ++ pyStr threshold
  | ValidationType.MAXIMUM => "<= " ++ pyStr threshold

/-- `ValidationCheck._validate` (lines 128-162).  REQUIRED returns
`threshold and actual is not None`, whose truthiness is
`truthy threshold && actual ≠ None`; EQUALS compares uppercased `str()`
forms; MINIMUM/MAXIMUM coerce both sides with `numForCompare` and compare,
any `TypeError`/`ValueError` being caught as `False`. -/
def validate (c : ValidationCheck) (actual threshold : Value) : Bool :=
  match c.validation_type with
  | ValidationType.REQUIRED => truthy threshold && !(actual == Value.none)
  | ValidationType.EQUALS => pyUpper (pyStr actual) == pyUpper (pyStr threshold)
  | ValidationType.MINIMUM =>
      match numForCompare actual, numForCompare threshold with
      | some a, some t => decide (a ≥ t)
      | _, _ => false
  | ValidationType.MAXIMUM =>
      match numForCompare actual, numForCompare threshold with
      | some a, some t => decide (a ≤ t)
      | _, _ => false

/-- The `try` block of `ValidationCheck.execute` (lines 86-111): run the
query and `fetchone` (the combined outcome is `fetch`), handle a missing or
falsy-first-column row as `"NOT SET"`, otherwise normalize, transform and
validate.  Produces `(passed, actual, expected)`; any raise anywhere in the
block surfaces as `Except.error`. -/
def VCtryBody (c : ValidationCheck) (fetch : Except String (Option (List Value)))
    (threshold : Value) (transform : Option PyFun) :
    Except String (Bool × Value × String) :=
  match fetch with
  | Except.error e => Except.error e
  | Except.ok row =>
      match row with
      | Option.none =>
          Except.ok (decide (threshold = Value.bool false ∨ threshold = Value.none)
                  || validate c (Value.str "NOT SET") threshold,
                Value.str "NOT SET", getExpectedValue c threshold)
      | Option.some [] =>
          Except.ok (decide (threshold = Value.bool false ∨ threshold = Value.none)
                  || validate c (Value.str "NOT SET") threshold,
                Value.str "NOT SET", getExpectedValue c threshold)
      | Option.some (v :: _) =>
          if truthy v then
            match applyOpt c.value_normalizer v with
            | Except.error e => Except.error e
            | Except.ok a1 =>
                match applyOpt transform a1 with
                | Except.error e => Except.error e
                | Except.ok a2 =>
                    Except.ok (validate c a2 threshold, a2, getExpectedValue c threshold)
          else
            Except.ok (decide (threshold = Value.bool false ∨ threshold = Value.none)
                    || validate c (Value.str "NOT SET") threshold,
                  Value.str "NOT SET", getExpectedValue c threshold)

/-- `ValidationCheck.execute` (lines 52-126): resolve the effective
threshold, short-circuit a not-required REQUIRED check, otherwise run the
`try` block and convert a raise into the failing `"ERROR"` result. -/
def VCexecute (c : ValidationCheck) (fetch : Except String (Option (List Value)))
    (database_name : String) (rule_value : Value) (transform : Option PyFun) :
    CheckResult :=
  let threshold := effectiveThreshold c rule_value
  if (threshold = Value.bool false ∨ threshold = Value.none)
      ∧ c.validation_type = ValidationType.REQUIRED then
    createResult c.meta database_name true (Value.str "N/A") (Value.str "Not Required")
      "Check not required"
  else
    match VCtryBody c fetch threshold transform with
    | Except.ok (passed, actual, expected) =>
        createResult c.meta database_name passed actual (Value.str expected) ""
    | Except.error e =>
        createResult c.meta database_name false (Value.str "ERROR")
          (Value.str (getExpectedValue c threshold)) ("Error executing check: " ++ e)

/-- `_normalize_boolean` from `checks/flashback_enabled_check.py` lines
8-27: `None` maps to `"False"`; otherwise `str(value).strip().upper()` is
mapped to `"True"`/`"False"` when it is a recognised boolean word, else
returned as-is. -/
def normalizeBoolean (value : Value) : Value :=
  match value with
  | Value.none => Value.str "False"
  | v =>
      let valStr := pyUpper (pyStrip (pyStr v))
      if valStr = "YES" ∨ valStr = "TRUE" ∨ valStr = "Y" ∨ valStr = "1" ∨ valStr = "ON" then
        Value.str "True"
      else if valStr = "NO" ∨ valStr = "FALSE" ∨ valStr = "N" ∨ valStr = "0"
          ∨ valStr = "OFF" ∨ valStr = "NONE" then
        Value.str "False"
      else
        Value.str valStr

/-- The `MEMORY_TARGET` REQUIRED check
(`checks/memory_target_required_check.py`): no static threshold, no
normalizer. -/
def memoryTargetRequiredCheck : ValidationCheck :=
  { meta := { name := "memory_target_required"
              check_name := "MEMORY_TARGET"
              description := "MEMORY_TARGET can be set for automatic memory management (optional for modern Oracle)." }
    query := "SELECT value FROM v$parameter WHERE name = 'memory_target' AND value != '0'"
    validation_type := ValidationType.REQUIRED
    threshold := Value.none
    value_normalizer := Option.none }

/-- The `SESSIONS_MIN` MINIMUM check (`checks/sessions_min_check.py`):
static threshold 1000, no normalizer. -/
def sessionsMinCheck : ValidationCheck :=
  { meta := { name := "sessions_min"
              check_name := "SESSIONS_MIN"
              description := "The SESSIONS parameter should be set to at least 1000 to support sufficient concurrent user sessions." }
    query := "SELECT value FROM v$parameter WHERE name = 'sessions'"
    validation_type := ValidationType.MINIMUM
    threshold := Value.int 1000
    value_normalizer := Option.none }

/-- The `FLASHBACK_ENABLED` EQUALS check
(`checks/flashback_enabled_check.py`): threshold `"True"`, normalizer
`_normalize_boolean` (which never raises). -/
def flashbackEnabledCheck : ValidationCheck :=
  { meta := { name := "flashback_enabled"
              check_name := "FLASHBACK_ENABLED"
              description := "Flashback database should be enabled for recovery capabilities." }
    query := "SELECT flashback_on FROM v$database"
    validation_type := ValidationType.EQUALS
    threshold := Value.str "True"
    value_normalizer := Option.some (fun v => Except.ok (normalizeBoolean v)) }

/-!  ## Rule resolution (`validation_manager.py`)

Python dicts are modelled extensionally as lookup functions
`String → Option α`; `dict.update` then becomes "left argument's entry
unless the updating mapping has one".  Rule values may be scalars or
structured sub-configurations, and `get_rules` never inspects them, so the
model is polymorphic in the value type. -/

/-- The loaded rule document held by `ValidationManager._data`
(`validation_manager.py` lines 54-57): a `defaults` mapping and an
`overrides` mapping keyed by database name. -/
structure VMData (α : Type) where
  defaults : String → Option α
  overrides : String → Option (String → Option α)

/-- `ValidationManager.get_rules` (lines 59-77): start from a copy of the
defaults and, when the database has an overrides entry, `update` with it
(override value wins on key collision). -/
def get_rules {α : Type} (vm : VMData α) (database_name : String) :
    String → Option α :=
  match vm.overrides database_name with
  | Option.some ov => fun k =>
      match ov k with
      | Option.some v => Option.some v
      | Option.none => vm.defaults k
  | Option.none => fun k => vm.defaults k

/-- The rule document of the spec scenario:
`defaults={"sessions_min": 1000}`, `overrides={"FREE": {"sessions_min": 100}}`. -/
def vmScenario : VMData Value :=
  { defaults := fun k => if k = "sessions_min" then Option.some (Value.int 1000) else Option.none
    overrides := fun n =>
      if n = "FREE" then
        Option.some (fun k => if k = "sessions_min" then Option.some (Value.int 100) else Option.none)
      else Option.none }

/-!  ## The engine's per-rule loop (`oracle_health_check.py` lines 375-415)

A registered check's bound `execute`, with the cursor and database name
already in scope, is modelled as a function of the two arguments the loop
supplies: the rule value and the optional transform.  The loop's
per-check `except` clauses never fire in the model because every modelled
`execute` is total (each check catches its own faults), matching the
source checks embedded here.  The trailing password-validation step
(line 418) appends further results for a different, fixed rule and is
outside the claims under scrutiny. -/

/-- A check as the engine sees it after registry lookup. -/
def RegisteredExec : Type := Value → Option PyFun → CheckResult

/-- The rules loop of `OracleHealthCheck._execute_checks` (lines 375-415):
skip a `None` rule value, skip a rule whose check is not in the registry
(`KeyError` from `get_check`), otherwise execute the check with the rule
value and the rule's transformer and stamp `is_override` from the
overridden-keys set. -/
def engineExecuteChecks (rules : List (String × Value)) (overriddenKeys : List String)
    (getCheck : String → Option RegisteredExec)
    (getTransformer : String → Option PyFun) : List CheckResult :=
  match rules with
  | [] => []
  | (rule_name, rule_value) :: rest =>
      if rule_value = Value.none then
        engineExecuteChecks rest overriddenKeys getCheck getTransformer
      else
        match getCheck rule_name with
        | Option.none => engineExecuteChecks rest overriddenKeys getCheck getTransformer
        | Option.some ex =>
            let r := ex rule_value (getTransformer rule_name)
            { r with is_override := decide (rule_name ∈ overriddenKeys) }
              :: engineExecuteChecks rest overriddenKeys getCheck getTransformer

/-!  ## Custom-logic checks -/

/-- Identity fields of `DatafilesASMCheck` (`checks/datafiles_asm_check.py`
lines 11-18). -/
def datafilesASMMeta : CheckMeta :=
  { name := "datafiles_asm"
    check_name := "DATAFILES_ASM"
    description := "All datafiles should be stored in the +DATA ASM disk group." }

/-- `DatafilesASMCheck.execute` (`checks/datafiles_asm_check.py` lines
20-100).  The single-column rows of `SELECT name FROM v$datafile` are
modelled as the list of fetched datafile name strings.  Gate on
`rule_value`, handle the empty fetch, partition by the `+DATA` marker,
truncate the offender list to 3 entries, and convert any raise into the
failing `"ERROR"` result. -/
def datafilesASMExecute (rule_value : Value)
    (fetchall : Except String (List String)) (database_name : String) : CheckResult :=
  if rule_value = Value.bool false ∨ rule_value = Value.none then
    createResult datafilesASMMeta database_name true (Value.str "N/A")
      (Value.str "Not Required") "Check not required"
  else
    match fetchall with
    | Except.error e =>
        createResult datafilesASMMeta database_name false (Value.str "ERROR")
          (Value.str "+DATA/...") ("Error checking datafiles ASM location: " ++ e)
    | Except.ok rows =>
        if rows = [] then
          createResult datafilesASMMeta database_name false (Value.str "0")
            (Value.str "+DATA/...") "No datafiles found"
        else
          let parts := rows.partition (fun p => pyStartsWith p "+DATA")
          let numIn := parts.1.length
          let numNot := parts.2.length
          let total := rows.length
          let passed := numNot = 0
          let actual :=
            if passed then
              toString numIn ++ "/" ++ toString total ++ " datafiles in +DATA"
            else
              toString numIn ++ "/" ++ toString total ++ " in +DATA, "
                ++ toString numNot ++ " elsewhere"
          let message :=
            if passed then ""
            else
              let invalid := String.intercalate ", " (parts.2.take 3)
              let invalid :=
                if numNot > 3 then invalid ++ "... (+" ++ toString (numNot - 3) ++ " more)"
                else invalid
              "Found " ++ toString numNot ++ " datafile(s) not in +DATA: " ++ invalid
          createResult datafilesASMMeta database_name passed (Value.str actual)
            (Value.str "All datafiles in +DATA") message

/-- Substring search on character lists (helper for Python's `in` on
strings). -/
def charsContains (hay needle : List Char) : Bool :=
  match hay with
  | [] => needle.isEmpty
  | c :: t => needle.isPrefixOf (c :: t) || charsContains t needle

/-- Python `needle in hay` on strings. -/
def pyIn (needle hay : String) : Bool :=
  charsContains hay.toList needle.toList

/-- Identity fields of `SchedulerJobsStatusCheck`
(`checks/scheduler_jobs_status_check.py` lines 11-18). -/
def schedulerJobsMeta : CheckMeta :=
  { name := "scheduler_jobs_status"
    check_name := "SCHEDULER_JOBS_STATUS"
    description := "Reports on scheduler jobs status. Alerts if purge/cleanup jobs are disabled." }

/-- Row-classification of the scheduler check (`scheduler_jobs_status_check.py`
lines 56-66): a row is enabled iff `str(row[1]).upper() == "TRUE"`. -/
def schedulerRowEnabled (row : String × Value) : Bool :=
  pyUpper (pyStr row.2) == "TRUE"

/-- `SchedulerJobsStatusCheck.execute` (lines 20-95).  Rows of
`SELECT job_name, enabled FROM dba_scheduler_jobs` are `(job_name, enabled)`
pairs.  The check passes iff no disabled job's lowercased name contains
`"purge"` or `"cleanup"`; on any raise it returns a PASSING result with
`actual_value "ERROR"` (source lines 88-95). -/
def schedulerJobsExecute (fetchall : Except String (List (String × Value)))
    (database_name : String) : CheckResult :=
  match fetchall with
  | Except.error e =>
      createResult schedulerJobsMeta database_name true (Value.str "ERROR")
        (Value.str "N/A") ("Error checking scheduler jobs: " ++ e)
  | Except.ok rows =>
      if rows = [] then
        createResult schedulerJobsMeta database_name true (Value.str "0 jobs")
          (Value.str "N/A") "No scheduler jobs found"
      else
        let totalJobs := rows.length
        let enabledJobs := (rows.filter schedulerRowEnabled).map Prod.fst
        let disabledJobs := (rows.filter (fun r => !(schedulerRowEnabled r))).map Prod.fst
        let criticalDisabled := disabledJobs.filter
          (fun n => pyIn "purge" (pyLower n) || pyIn "cleanup" (pyLower n))
        let passed := criticalDisabled.length = 0
        let nEnabled := enabledJobs.length
        let nDisabled := disabledJobs.length
        let actual := toString nEnabled ++ " enabled, " ++ toString nDisabled ++ " disabled"
        let message :=
          if !criticalDisabled.isEmpty then
            "ALERT: Critical job(s) disabled: " ++ String.intercalate ", " criticalDisabled
          else
            "All scheduler jobs: " ++ toString totalJobs ++ " total (" ++ toString nEnabled
              ++ " enabled, " ++ toString nDisabled ++ " disabled)"
        createResult schedulerJobsMeta database_name passed (Value.str actual)
          (Value.str "All purge/cleanup jobs enabled") message

/-- Identity fields of `PDBSaveStateCheck`
(`oracle_checks/pdb_save_state_check.py` lines 11-18). -/
def pdbSaveStateMeta : CheckMeta :=
  { name := "pdb_save_state"
    check_name := "PDB_SAVE_STATE"
    description := "For CDB: Checks that all PDBs have saved states configured. For non-CDB: N/A." }

/-- Python `v == 0` on a modelled scalar (never raises; bools compare as
0/1, strings and `None` are simply unequal to `0`). -/
def pyEqZero : Value → Bool
  | Value.int n => n == 0
  | Value.bool b => !b
  | Value.none => false
  | Value.str _ => false

/-- Python `v > 0` on a modelled scalar: comparing a string or `None` with
an int raises `TypeError`. -/
def pyGtZero : Value → Except String Bool
  | Value.int n => Except.ok (decide (n > 0))
  | Value.bool b => Except.ok b
  | Value.none => Except.error "TypeError: not supported between NoneType and int"
  | Value.str _ => Except.error "TypeError: not supported between str and int"

/-- `PDBSaveStateCheck.execute` (lines 20-81): probe for CDB mode with the
first query, short-circuit the non-CDB case, otherwise count open PDBs with
the second query (`row[0] if row else 0`) and pass iff the count equals 0;
any raise anywhere yields a PASSING `"Skipped"` result (lines 73-81). -/
def pdbSaveStateExecute (fetchCdbProbe : Except String (Option (List Value)))
    (fetchPdbCount : Except String (Option (List Value)))
    (database_name : String) : CheckResult :=
  let skipped := createResult pdbSaveStateMeta database_name true (Value.str "Skipped")
    (Value.str "N/A") "Not applicable for this database"
  match fetchCdbProbe with
  | Except.error _ => skipped
  | Except.ok probeRow =>
      if probeRow.isSome = false then
        createResult pdbSaveStateMeta database_name true (Value.str "N/A - Non-CDB")
          (Value.str "N/A") "Non-CDB database - PDB save state not applicable"
      else
        match fetchPdbCount with
        | Except.error _ => skipped
        | Except.ok countRow =>
            let totalPdbs : Value :=
              match countRow with
              | Option.some (v :: _) => v
              | Option.some [] => Value.int 0
              | Option.none => Value.int 0
            let passed := pyEqZero totalPdbs
            match pyGtZero totalPdbs with
            | Except.error _ => skipped
            | Except.ok anyPdbs =>
                let actual := pyStr totalPdbs ++ " PDBs in READ WRITE or READ ONLY mode"
                let expected :=
                  if anyPdbs then "All PDBs with save state configured" else "N/A"
                let message :=
                  if passed then ""
                  else "This check requires manual verification - " ++ pyStr totalPdbs
                    ++ " open PDBs found."
                createResult pdbSaveStateMeta database_name passed (Value.str actual)
                  (Value.str expected) message

/-!  ## Result summary and health label (`oracle_health_check.py`) -/

/-- One database's entry of the summary dict built by
`OracleHealthCheck.get_summary` (lines 670-689). -/
structure DBSummary where
  passed : Nat
  failed : Nat
  total : Nat
deriving DecidableEq

/-- The loop body of `get_summary` restricted to one database's entry. -/
def summaryStep (db : String) (s : DBSummary) (r : CheckResult) : DBSummary :=
  if r.database = db then
    if r.passed then
      { passed := s.passed + 1, failed := s.failed, total := s.total + 1 }
    else
      { passed := s.passed, failed := s.failed + 1, total := s.total + 1 }
  else s

/-- `OracleHealthCheck.get_summary` (lines 670-689), projected to the entry
for database `db`: fold over the result list counting passed/failed/total
among the results for that database. -/
def get_summary (results : List CheckResult) (db : String) : DBSummary :=
  results.foldl (summaryStep db) { passed := 0, failed := 0, total := 0 }

/-- The coarse health labels printed by `print_results`. -/
inductive HealthStatus where
  | HEALTHY : HealthStatus
  | DEGRADED : HealthStatus
  | UNHEALTHY : HealthStatus
deriving DecidableEq

/-- The health-label computation of `OracleHealthCheck.print_results`
(lines 795-803): `failed == 0` → HEALTHY, else
`failed <= total // 2` → DEGRADED, else UNHEALTHY. -/
def statusText (counts : DBSummary) : HealthStatus :=
  if counts.failed = 0 then HealthStatus.HEALTHY
  else if counts.failed ≤ counts.total / 2 then HealthStatus.DEGRADED
  else HealthStatus.UNHEALTHY

/-!  ## Theorems about the claims -/

/-- Helper: a string with a nonempty prefix is nonempty (used to evaluate
the message-defaulting branch of `_create_result` under an abstract error
message). -/
theorem prepend_ne_empty (p e : String) (hp : 0 < p.length) : p ++ e ≠ "" := by
  intro h
  have h0 : (p ++ e).length = 0 := by rw [h]; rfl
  rw [String.length_append] at h0
  omega

/-- C1: rule resolution merges defaults with per-instance overrides, the
override winning: a rule_name present in the instance's overrides resolves
to the override value; a rule_name absent from them resolves to the
default; an instance with no overrides entry gets exactly the defaults. -/
theorem C1_rule_resolution {α : Type} (vm : VMData α) (X : String) :
    (∀ ov k v, vm.overrides X = Option.some ov → ov k = Option.some v →
        get_rules vm X k = Option.some v)
    ∧ (∀ ov k, vm.overrides X = Option.some ov → ov k = Option.none →
        get_rules vm X k = vm.defaults k)
    ∧ (vm.overrides X = Option.none → get_rules vm X = vm.defaults) := by
  refine ⟨?_, ?_, ?_⟩
  · intro ov k v hov hk
    simp [get_rules, hov, hk]
  · intro ov k hov hk
    simp [get_rules, hov, hk]
  · intro hov
    funext k
    simp [get_rules, hov]

/-- C1 witness: the spec scenario
`defaults={"sessions_min": 1000}`, `overrides={"FREE": {"sessions_min": 100}}`:
`resolve("FREE")["sessions_min"] = 100` and
`resolve("OTHER")["sessions_min"] = 1000`. -/
theorem C1_rule_resolution_witness :
    get_rules vmScenario "FREE" "sessions_min" = Option.some (Value.int 100)
    ∧ get_rules vmScenario "OTHER" "sessions_min" = Option.some (Value.int 1000) := by
  constructor
  · exact (C1_rule_resolution vmScenario "FREE").1
      (fun k => if k = "sessions_min" then Option.some (Value.int 100) else Option.none)
      "sessions_min" (Value.int 100) rfl rfl
  · have h := (C1_rule_resolution vmScenario "OTHER").2.2 rfl
    rw [h]
    rfl

/-- C4: for a REQUIRED-type threshold check, if the effective threshold
(caller-supplied rule value when not None, else the static threshold) is
False or None, `execute` returns passed=True with actual_value "N/A",
expected_value "Not Required" and message "Check not required", for every
possible data-source behaviour and transform (the fetch is never
consulted). -/
theorem C4_required_not_required_short_circuit (c : ValidationCheck) (db : String)
    (rule_value : Value) (fetch : Except String (Option (List Value)))
    (transform : Option PyFun)
    (hvt : c.validation_type = ValidationType.REQUIRED)
    (hth : effectiveThreshold c rule_value = Value.bool false
           ∨ effectiveThreshold c rule_value = Value.none) :
    VCexecute c fetch db rule_value transform
      = { check_name := c.meta.check_name, database := db, passed := true,
          actual_value := "N/A", expected_value := "Not Required",
          message := "Check not required", is_override := false } := by
  unfold VCexecute
  rw [if_pos ⟨hth, hvt⟩]
  simp [createResult, pyStr]

/-- C4 witness: the MEMORY_TARGET REQUIRED check with no rule value (and no
static threshold) short-circuits to the "Not Required" pass even when the
cursor would raise. -/
theorem C4_required_not_required_short_circuit_witness :
    VCexecute memoryTargetRequiredCheck (Except.error "ORA-00942") "DB1" Value.none
      Option.none
      = { check_name := "MEMORY_TARGET", database := "DB1", passed := true,
          actual_value := "N/A", expected_value := "Not Required",
          message := "Check not required", is_override := false } :=
  C4_required_not_required_short_circuit memoryTargetRequiredCheck "DB1" Value.none
    (Except.error "ORA-00942") Option.none rfl (Or.inr (by decide))

/-- Helper: for a non-REQUIRED check with no normalizer and no transform, a
successful single-column fetch of a truthy value makes `execute`'s passed
flag exactly `_validate(value, effective_threshold)`. -/
theorem VCexecute_single_passed (c : ValidationCheck) (db : String) (rule_value a : Value)
    (hvt : c.validation_type ≠ ValidationType.REQUIRED)
    (hnorm : c.value_normalizer = Option.none)
    (ha : truthy a = true) :
    (VCexecute c (Except.ok (Option.some [a])) db rule_value Option.none).passed
      = validate c a (effectiveThreshold c rule_value) := by
  simp only [VCexecute]
  rw [if_neg (fun h => hvt h.2)]
  simp [VCtryBody, ha, applyOpt, hnorm, createResult]

/-- C6 counterexample: a comparison-stage exception does NOT produce
actual_value "ERROR".  The SESSIONS_MIN MINIMUM check fetching the
non-numeric string "abc" faults during comparison (`int("abc")` raises
`ValueError`, here `numForCompare` fails), yet `_validate` catches it
internally (`validation_check.py` lines 142-151) and `execute` returns
passed=False with the fetched value "abc" as actual_value and the check
description as message — refuting the claim that any comparison-stage
exception is converted into an actual_value "ERROR" result. -/
theorem C6_counterexample :
    pyIntOfString "abc" = Option.none
    ∧ (VCexecute sessionsMinCheck (Except.ok (Option.some [Value.str "abc"])) "DB1"
        (Value.int 1000) Option.none).passed = false
    ∧ (VCexecute sessionsMinCheck (Except.ok (Option.some [Value.str "abc"])) "DB1"
        (Value.int 1000) Option.none).actual_value = "abc"
    ∧ (VCexecute sessionsMinCheck (Except.ok (Option.some [Value.str "abc"])) "DB1"
        (Value.int 1000) Option.none).message
        = "The SESSIONS parameter should be set to at least 1000 to support sufficient concurrent user sessions." := by
  refine ⟨rfl, ?_, rfl, ?_⟩ <;> decide

/-- C6 amended: for a threshold check that does not take the REQUIRED
not-required short-circuit, an exception raised during query
execution/fetch, normalization, or transformation is caught and converted
into a result with passed=False, actual_value "ERROR" and the diagnostic
message "Error executing check: {e}"; a COMPARISON-stage fault, however,
is caught inside `_validate` itself (`validation_check.py` lines 142-151)
and yields passed=False with the fetched (normalized, transformed) value
as actual_value, not "ERROR"; `execute` (a total function in this
embedding) never propagates an exception to its caller. -/
theorem C6_fault_to_error_result (c : ValidationCheck) (db : String)
    (rule_value : Value) (transform : Option PyFun)
    (hns : ¬((effectiveThreshold c rule_value = Value.bool false
              ∨ effectiveThreshold c rule_value = Value.none)
             ∧ c.validation_type = ValidationType.REQUIRED)) :
    (∀ e, (VCexecute c (Except.error e) db rule_value transform).passed = false
        ∧ (VCexecute c (Except.error e) db rule_value transform).actual_value = "ERROR"
        ∧ (VCexecute c (Except.error e) db rule_value transform).message
            = "Error executing check: " ++ e)
    ∧ (∀ e v rest, truthy v = true →
        applyOpt c.value_normalizer v = Except.error e →
        (VCexecute c (Except.ok (Option.some (v :: rest))) db rule_value transform).passed
            = false
        ∧ (VCexecute c (Except.ok (Option.some (v :: rest))) db rule_value
            transform).actual_value = "ERROR"
        ∧ (VCexecute c (Except.ok (Option.some (v :: rest))) db rule_value
            transform).message = "Error executing check: " ++ e)
    ∧ (∀ e v rest a1, truthy v = true →
        applyOpt c.value_normalizer v = Except.ok a1 →
        applyOpt transform a1 = Except.error e →
        (VCexecute c (Except.ok (Option.some (v :: rest))) db rule_value transform).passed
            = false
        ∧ (VCexecute c (Except.ok (Option.some (v :: rest))) db rule_value
            transform).actual_value = "ERROR"
        ∧ (VCexecute c (Except.ok (Option.some (v :: rest))) db rule_value
            transform).message = "Error executing check: " ++ e)
    ∧ (∀ v, truthy v = true → c.value_normalizer = Option.none →
        transform = Option.none →
        (c.validation_type = ValidationType.MINIMUM
          ∨ c.validation_type = ValidationType.MAXIMUM) →
        (numForCompare v = Option.none
          ∨ numForCompare (effectiveThreshold c rule_value) = Option.none) →
        (VCexecute c (Except.ok (Option.some [v])) db rule_value transform).passed
            = false
        ∧ (VCexecute c (Except.ok (Option.some [v])) db rule_value
            transform).actual_value = pyStr v) := by
  refine ⟨?_, ?_, ?_, ?_⟩
  · intro e
    simp only [VCexecute]
    rw [if_neg hns]
    simp [VCtryBody, createResult, pyStr,
      prepend_ne_empty "Error executing check: " e (by decide)]
  · intro e v rest hv happ
    simp only [VCexecute]
    rw [if_neg hns]
    simp [VCtryBody, hv, happ, createResult, pyStr,
      prepend_ne_empty "Error executing check: " e (by decide)]
  · intro e v rest a1 hv hn ht
    simp only [VCexecute]
    rw [if_neg hns]
    simp [VCtryBody, hv, hn, ht, createResult, pyStr,
      prepend_ne_empty "Error executing check: " e (by decide)]
  · intro v hv hnorm htrf hmm hfail
    subst htrf
    have hreq : c.validation_type ≠ ValidationType.REQUIRED := by
      rcases hmm with h | h <;> rw [h] <;> decide
    constructor
    · rw [VCexecute_single_passed c db rule_value v hreq hnorm hv]
      rcases hfail with hf | hf
      · rcases hmm with h | h <;> simp [validate, h, hf]
      · cases hnv : numForCompare v <;>
          rcases hmm with h | h <;> simp [validate, h, hf, hnv]
    · simp only [VCexecute]
      rw [if_neg hns]
      simp [VCtryBody, hv, applyOpt, hnorm, createResult]

/-- C6 witness: the SESSIONS_MIN MINIMUM check with a raising cursor
produces the failing "ERROR" result, while the same check fetching the
non-numeric "abc" (comparison-stage fault) fails with actual_value "abc". -/
theorem C6_fault_to_error_result_witness :
    ((VCexecute sessionsMinCheck (Except.error "ORA-00942: table or view does not exist")
        "DB1" (Value.int 1000) Option.none).passed = false
    ∧ (VCexecute sessionsMinCheck (Except.error "ORA-00942: table or view does not exist")
        "DB1" (Value.int 1000) Option.none).actual_value = "ERROR"
    ∧ (VCexecute sessionsMinCheck (Except.error "ORA-00942: table or view does not exist")
        "DB1" (Value.int 1000) Option.none).message
        = "Error executing check: " ++ "ORA-00942: table or view does not exist")
    ∧ ((VCexecute sessionsMinCheck (Except.ok (Option.some [Value.str "abc"]))
        "DB1" (Value.int 1000) Option.none).passed = false
    ∧ (VCexecute sessionsMinCheck (Except.ok (Option.some [Value.str "abc"]))
        "DB1" (Value.int 1000) Option.none).actual_value = pyStr (Value.str "abc")) :=
  ⟨(C6_fault_to_error_result sessionsMinCheck "DB1" (Value.int 1000) Option.none
      (by decide)).1 "ORA-00942: table or view does not exist",
    (C6_fault_to_error_result sessionsMinCheck "DB1" (Value.int 1000) Option.none
      (by decide)).2.2.2 (Value.str "abc") (by decide) rfl rfl (Or.inl rfl)
      (Or.inl rfl)⟩

/-- C5: for MINIMUM and MAXIMUM checks, fetched value and threshold are
both numerically coerced (decimal strings to integers) before comparison,
so the outcome only depends on the coerced numbers — representation does
not matter (`"1000"` against native `1000` passes a MINIMUM of 1000) — and
any value or threshold that fails coercion makes the check return
passed=False (the `TypeError`/`ValueError` is caught, never raised). -/
theorem C5_numeric_coercion (c : ValidationCheck) (db : String) (rule_value a : Value)
    (hvt : c.validation_type = ValidationType.MINIMUM
           ∨ c.validation_type = ValidationType.MAXIMUM)
    (hnorm : c.value_normalizer = Option.none)
    (ha : truthy a = true) :
    ((∀ b, truthy b = true → numForCompare b = numForCompare a →
        (VCexecute c (Except.ok (Option.some [b])) db rule_value Option.none).passed
          = (VCexecute c (Except.ok (Option.some [a])) db rule_value Option.none).passed)
      ∧ (numForCompare a = Option.none
          ∨ numForCompare (effectiveThreshold c rule_value) = Option.none →
          (VCexecute c (Except.ok (Option.some [a])) db rule_value Option.none).passed
            = false))
    ∧ (VCexecute sessionsMinCheck (Except.ok (Option.some [Value.str "1000"])) db
        (Value.int 1000) Option.none).passed = true := by
  have hreq : c.validation_type ≠ ValidationType.REQUIRED := by
    rcases hvt with h | h <;> rw [h] <;> decide
  constructor
  · constructor
    · intro b hb hnum
      rw [VCexecute_single_passed c db rule_value b hreq hnorm hb,
        VCexecute_single_passed c db rule_value a hreq hnorm ha]
      rcases hvt with h | h <;> simp [validate, h, hnum]
    · intro hfail
      rw [VCexecute_single_passed c db rule_value a hreq hnorm ha]
      rcases hfail with hf | hf
      · rcases hvt with h | h <;> simp [validate, h, hf]
      · cases hna : numForCompare a <;>
          rcases hvt with h | h <;> simp [validate, h, hf, hna]
  · have h1 : truthy (Value.str "1000") = true := by decide
    rw [VCexecute_single_passed sessionsMinCheck db (Value.int 1000) (Value.str "1000")
      (by decide) rfl h1]
    decide

/-- C5 witness: the SESSIONS_MIN check with fetched string "1000" and rule
value 1000; the representation-independence clause changes nothing when
instantiated with the already-numeric fetched value 1000. -/
theorem C5_numeric_coercion_witness :
    (VCexecute sessionsMinCheck (Except.ok (Option.some [Value.int 1000])) "DB1"
        (Value.int 1000) Option.none).passed
      = (VCexecute sessionsMinCheck (Except.ok (Option.some [Value.str "1000"])) "DB1"
        (Value.int 1000) Option.none).passed
    ∧ (VCexecute sessionsMinCheck (Except.ok (Option.some [Value.str "1000"])) "DB1"
        (Value.int 1000) Option.none).passed = true := by
  have h := C5_numeric_coercion sessionsMinCheck "DB1" (Value.int 1000)
    (Value.str "1000") (Or.inl rfl) rfl (by decide)
  exact ⟨h.1.1 (Value.int 1000) (by decide) (by decide), h.2⟩

/-- C7: the EQUALS validator compares the uppercased string forms of the
(normalized, transformed) value and the threshold, hence is
case-insensitive: fetched "true" against threshold "True" passes, and with
the boolean-word normalizer of the FLASHBACK_ENABLED check a raw fetched
"YES" against threshold "True" passes. -/
theorem C7_equals_case_insensitive (c : ValidationCheck)
    (hvt : c.validation_type = ValidationType.EQUALS) :
    (∀ a t, validate c a t = (pyUpper (pyStr a) == pyUpper (pyStr t)))
    ∧ (VCexecute flashbackEnabledCheck (Except.ok (Option.some [Value.str "true"]))
        "DB1" (Value.str "True") Option.none).passed = true
    ∧ (VCexecute flashbackEnabledCheck (Except.ok (Option.some [Value.str "YES"]))
        "DB1" (Value.str "True") Option.none).passed = true := by
  refine ⟨?_, by decide, by decide⟩
  intro a t
  simp [validate, hvt]

/-- C7 witness: the general clause instantiated at "true" vs "True" (both
uppercase to "TRUE"), plus the normalizer scenario. -/
theorem C7_equals_case_insensitive_witness :
    validate flashbackEnabledCheck (Value.str "true") (Value.str "True")
      = (pyUpper (pyStr (Value.str "true")) == pyUpper (pyStr (Value.str "True")))
    ∧ (VCexecute flashbackEnabledCheck (Except.ok (Option.some [Value.str "YES"]))
        "DB1" (Value.str "True") Option.none).passed = true :=
  ⟨(C7_equals_case_insensitive flashbackEnabledCheck rfl).1 (Value.str "true")
      (Value.str "True"),
    (C7_equals_case_insensitive flashbackEnabledCheck rfl).2.2⟩

/-- C10: a REQUIRED-type threshold check with a truthy effective threshold
returns passed=True whenever the query and fetch do not raise — including a
missing row or a falsy first column, where actual_value becomes "NOT SET"
yet the check passes — because the REQUIRED comparison only tests that the
compared value is not None, and on the non-exception path the compared
value is never None (the hypothesis on the normalizer/transform chain holds
for every REQUIRED check in the registry: none of them has a normalizer,
and the engine supplies them no transform). -/
theorem C10_required_truthy_passes_without_exception (c : ValidationCheck)
    (db : String) (rule_value : Value) (transform : Option PyFun)
    (row : Option (List Value))
    (hvt : c.validation_type = ValidationType.REQUIRED)
    (htr : truthy (effectiveThreshold c rule_value) = true)
    (hchain : ∀ v, truthy v = true →
        ∃ a1 w, applyOpt c.value_normalizer v = Except.ok a1
          ∧ applyOpt transform a1 = Except.ok w ∧ w ≠ Value.none) :
    (VCexecute c (Except.ok row) db rule_value transform).passed = true
    ∧ (row = Option.none →
        (VCexecute c (Except.ok row) db rule_value transform).actual_value
          = "NOT SET") := by
  have hns : ¬((effectiveThreshold c rule_value = Value.bool false
      ∨ effectiveThreshold c rule_value = Value.none)
      ∧ c.validation_type = ValidationType.REQUIRED) := by
    rintro ⟨h1 | h1, _⟩ <;> rw [h1] at htr <;> simp [truthy] at htr
  have hnotset : validate c (Value.str "NOT SET")
      (effectiveThreshold c rule_value) = true := by
    simp [validate, hvt, htr]
  constructor
  · simp only [VCexecute]
    rw [if_neg hns]
    match row with
    | Option.none => simp [VCtryBody, hnotset, createResult]
    | Option.some [] => simp [VCtryBody, hnotset, createResult]
    | Option.some (v :: rest) =>
        cases hv : truthy v with
        | false => simp [VCtryBody, hv, hnotset, createResult]
        | true =>
            obtain ⟨a1, w, h1, h2, hw⟩ := hchain v hv
            simp [VCtryBody, hv, h1, h2, createResult, validate, hvt, htr, hw]
  · intro hrow
    subst hrow
    simp only [VCexecute]
    rw [if_neg hns]
    simp [VCtryBody, createResult, pyStr]

/-- C10 witness: the MEMORY_TARGET REQUIRED check with rule value True and
a successful fetch returning no row passes with actual_value "NOT SET". -/
theorem C10_required_truthy_passes_without_exception_witness :
    (VCexecute memoryTargetRequiredCheck (Except.ok Option.none) "DB1"
        (Value.bool true) Option.none).passed = true
    ∧ (VCexecute memoryTargetRequiredCheck (Except.ok Option.none) "DB1"
        (Value.bool true) Option.none).actual_value = "NOT SET" := by
  have h := C10_required_truthy_passes_without_exception memoryTargetRequiredCheck
    "DB1" (Value.bool true) Option.none Option.none rfl (by decide)
    (fun v hv => ⟨v, v, rfl, rfl, by
      intro hc
      rw [hc] at hv
      simp [truthy] at hv⟩)
  exact ⟨h.1, h.2 rfl⟩

/-- A one-check registry binding the MEMORY_TARGET REQUIRED check (with a
successful empty fetch on database "DB1") under its rule name, used to run
the engine loop on concrete rule sets. -/
def memoryTargetRegistry : String → Option RegisteredExec := fun n =>
  if n = "memory_target_required" then
    Option.some (fun rv tr =>
      VCexecute memoryTargetRequiredCheck (Except.ok Option.none) "DB1" rv tr)
  else Option.none

/-- C2 counterexample: a rule set resolving `memory_target_required` to
None, run through the engine loop with the corresponding REQUIRED check
registered, yields an EMPTY result list — the rule disappears instead of
producing the claimed passing informational result (the engine's
`if rule_value is None: continue` at `oracle_health_check.py` line 377
skips it before the check is ever invoked). -/
theorem C2_counterexample :
    engineExecuteChecks [("memory_target_required", Value.none)] []
      memoryTargetRegistry (fun _ => Option.none) = [] := rfl

/-- C2 amended: a rule whose resolved value is None is skipped by the
engine and produces NO result; it is a resolved value of False that still
flows to a REQUIRED-type validator and produces the passing, informational
result (passed=True, actual "N/A", expected "Not Required", message "Check
not required"). -/
theorem C2_none_rule_skipped_false_rule_reports (name db : String)
    (c : ValidationCheck) (fetch : Except String (Option (List Value)))
    (overriddenKeys : List String) (getCheck : String → Option RegisteredExec)
    (getTransformer : String → Option PyFun)
    (hvt : c.validation_type = ValidationType.REQUIRED)
    (hreg : getCheck name
      = Option.some (fun rv tr => VCexecute c fetch db rv tr)) :
    engineExecuteChecks [(name, Value.none)] overriddenKeys getCheck getTransformer = []
    ∧ (engineExecuteChecks [(name, Value.bool false)] overriddenKeys getCheck
        getTransformer).map
          (fun r => (r.passed, r.actual_value, r.expected_value, r.message))
        = [(true, "N/A", "Not Required", "Check not required")] := by
  constructor
  · simp [engineExecuteChecks]
  · simp only [engineExecuteChecks, hreg]
    rw [if_neg (by decide : ¬(Value.bool false = Value.none))]
    simp only [VCexecute]
    rw [if_pos ⟨Or.inl (by simp [effectiveThreshold]), hvt⟩]
    simp [createResult, pyStr]

/-- C2 amended witness: the concrete one-rule runs through
`memoryTargetRegistry`. -/
theorem C2_none_rule_skipped_false_rule_reports_witness :
    engineExecuteChecks [("memory_target_required", Value.none)] ["other_key"]
      memoryTargetRegistry (fun _ => Option.none) = []
    ∧ (engineExecuteChecks [("memory_target_required", Value.bool false)] ["other_key"]
        memoryTargetRegistry (fun _ => Option.none)).map
          (fun r => (r.passed, r.actual_value, r.expected_value, r.message))
        = [(true, "N/A", "Not Required", "Check not required")] :=
  C2_none_rule_skipped_false_rule_reports "memory_target_required" "DB1"
    memoryTargetRequiredCheck (Except.ok Option.none) ["other_key"]
    memoryTargetRegistry (fun _ => Option.none) rfl rfl

/-- C3 counterexample: the scheduler-jobs-status check, on a fault during
data access, returns a PASSING result (passed=True) with actual_value
"ERROR" (`scheduler_jobs_status_check.py` lines 88-95) — refuting the claim
that every custom check returns a failing result (passed=False) on fault. -/
theorem C3_counterexample :
    (schedulerJobsExecute (Except.error "ORA-00600: internal error") "DB1").passed = true
    ∧ (schedulerJobsExecute (Except.error "ORA-00600: internal error") "DB1").actual_value
        = "ERROR" := by
  constructor <;> rfl

/-- C3 amended: no custom check's `execute` raises (each is total, every
fault branch returning a result), and on a data-access fault the
datafiles-ASM check returns the failing result with actual_value "ERROR"
and a diagnostic message — but the scheduler-jobs-status check returns
passed=True with actual_value "ERROR" and a diagnostic message, and the
PDB-save-state check returns passed=True with actual_value "Skipped"
("not applicable"), not a failing "ERROR" result. -/
theorem C3_fault_behaviour_per_check (e db : String)
    (fetchPdbCount : Except String (Option (List Value))) :
    ((datafilesASMExecute (Value.bool true) (Except.error e) db).passed = false
      ∧ (datafilesASMExecute (Value.bool true) (Except.error e) db).actual_value
          = "ERROR"
      ∧ (datafilesASMExecute (Value.bool true) (Except.error e) db).message
          = "Error checking datafiles ASM location: " ++ e)
    ∧ ((schedulerJobsExecute (Except.error e) db).passed = true
      ∧ (schedulerJobsExecute (Except.error e) db).actual_value = "ERROR"
      ∧ (schedulerJobsExecute (Except.error e) db).message
          = "Error checking scheduler jobs: " ++ e)
    ∧ ((pdbSaveStateExecute (Except.error e) fetchPdbCount db).passed = true
      ∧ (pdbSaveStateExecute (Except.error e) fetchPdbCount db).actual_value
          = "Skipped") := by
  refine ⟨⟨?_, ?_, ?_⟩, ⟨?_, ?_, ?_⟩, ?_, ?_⟩ <;>
    simp [datafilesASMExecute, schedulerJobsExecute, pdbSaveStateExecute,
      createResult, pyStr,
      prepend_ne_empty "Error checking datafiles ASM location: " e (by decide)]

/-- C8 counterexample: for an empty fetched file list the non-matching
partition is empty, yet the enabled datafiles-ASM check FAILS (returns the
"No datafiles found" failure, `datafiles_asm_check.py` lines 47-54) —
refuting "passes iff the non-matching partition is empty" as stated for
every fetched list. -/
theorem C8_counterexample :
    (([] : List String).filter (fun p => !(pyStartsWith p "+DATA")) = [])
    ∧ (datafilesASMExecute (Value.bool true) (Except.ok []) "DB1").passed = false
    ∧ (datafilesASMExecute (Value.bool true) (Except.ok []) "DB1").message
        = "No datafiles found" := by
  refine ⟨rfl, rfl, ?_⟩
  decide

/-- C8 amended: for a NONEMPTY fetched file list, the enabled
datafiles-ASM check passes iff every path starts with "+DATA" (an empty
fetch instead fails with "No datafiles found"); on failure the offending
list shown is truncated to the first 3 entries plus a "(+N more)" suffix;
concretely, rows ["+DATA/f1","+DATA/f2","/u01/f3"] give passed=False,
actual_value "2/3 in +DATA, 1 elsewhere" and a message listing "/u01/f3",
and six rows with five offenders give "... (+2 more)". -/
theorem C8_datafiles_partition_and_truncation (db : String) (rows : List String)
    (hne : rows ≠ []) :
    ((datafilesASMExecute (Value.bool true) (Except.ok rows) db).passed = true
       ↔ ∀ p ∈ rows, pyStartsWith p "+DATA" = true)
    ∧ ((datafilesASMExecute (Value.bool true)
          (Except.ok ["+DATA/f1", "+DATA/f2", "/u01/f3"]) db).passed = false
      ∧ (datafilesASMExecute (Value.bool true)
          (Except.ok ["+DATA/f1", "+DATA/f2", "/u01/f3"]) db).actual_value
          = "2/3 in +DATA, 1 elsewhere"
      ∧ (datafilesASMExecute (Value.bool true)
          (Except.ok ["+DATA/f1", "+DATA/f2", "/u01/f3"]) db).message
          = "Found 1 datafile(s) not in +DATA: /u01/f3")
    ∧ (datafilesASMExecute (Value.bool true)
          (Except.ok ["+DATA/f1", "/a", "/b", "/c", "/d", "/e"]) db).message
          = "Found 5 datafile(s) not in +DATA: /a, /b, /c... (+2 more)" := by
  refine ⟨?_, ⟨rfl, rfl, rfl⟩, rfl⟩
  simp [datafilesASMExecute, hne, createResult, List.partition_eq_filter_filter,
    List.length_eq_zero, List.filter_eq_nil_iff]

/-- C8 witness: the amended theorem applied at the spec scenario rows. -/
theorem C8_datafiles_partition_and_truncation_witness :
    (datafilesASMExecute (Value.bool true)
        (Except.ok ["+DATA/f1", "+DATA/f2", "/u01/f3"]) "DB1").passed = false
    ∧ (datafilesASMExecute (Value.bool true)
        (Except.ok ["+DATA/f1", "+DATA/f2", "/u01/f3"]) "DB1").actual_value
        = "2/3 in +DATA, 1 elsewhere"
    ∧ (datafilesASMExecute (Value.bool true)
        (Except.ok ["+DATA/f1", "+DATA/f2", "/u01/f3"]) "DB1").message
        = "Found 1 datafile(s) not in +DATA: /u01/f3" :=
  (C8_datafiles_partition_and_truncation "DB1"
    ["+DATA/f1", "+DATA/f2", "/u01/f3"] (by decide)).2.1

/-- A concrete result used to exercise the summary computation. -/
def mkPlainResult (n : String) (p : Bool) : CheckResult :=
  { check_name := n, database := "DB1", passed := p, actual_value := "x",
    expected_value := "y", message := "", is_override := false }

/-- Four results for one instance, exactly half of them passing. -/
def halfPassedResults : List CheckResult :=
  [mkPlainResult "A" true, mkPlainResult "B" true,
   mkPlainResult "C" false, mkPlainResult "D" false]

/-- C9 counterexample: an instance with exactly half of its checks passed
(2 of 4) is labelled DEGRADED by `print_results`
(`failed <= total // 2`, `oracle_health_check.py` line 798), not UNHEALTHY
as claimed. -/
theorem C9_counterexample :
    get_summary halfPassedResults "DB1" = { passed := 2, failed := 2, total := 4 }
    ∧ statusText (get_summary halfPassedResults "DB1") = HealthStatus.DEGRADED
    ∧ HealthStatus.DEGRADED ≠ HealthStatus.UNHEALTHY := by
  refine ⟨rfl, rfl, by decide⟩

/-- Helper: the summary counts satisfy passed + failed = total. -/
theorem get_summary_sum (results : List CheckResult) (db : String) :
    (get_summary results db).passed + (get_summary results db).failed
      = (get_summary results db).total := by
  suffices h : ∀ acc : DBSummary, acc.passed + acc.failed = acc.total →
      (results.foldl (summaryStep db) acc).passed
          + (results.foldl (summaryStep db) acc).failed
        = (results.foldl (summaryStep db) acc).total by
    exact h { passed := 0, failed := 0, total := 0 } rfl
  induction results with
  | nil => intro acc h; simpa using h
  | cons r rest ih =>
      intro acc h
      simp only [List.foldl_cons]
      apply ih
      unfold summaryStep
      split
      · split <;> simp <;> omega
      · exact h

/-- C9 amended: the health label is computed from the per-instance pass
counts as: all checks passed → HEALTHY; at least half passed but not all
(failed ≤ total // 2, so exactly half passed is DEGRADED) → DEGRADED;
fewer than half passed → UNHEALTHY. -/
theorem C9_health_label_thresholds (results : List CheckResult) (db : String) :
    (get_summary results db).passed + (get_summary results db).failed
        = (get_summary results db).total
    ∧ (statusText (get_summary results db) = HealthStatus.HEALTHY
        ↔ (get_summary results db).passed = (get_summary results db).total)
    ∧ (statusText (get_summary results db) = HealthStatus.DEGRADED
        ↔ ((get_summary results db).passed ≠ (get_summary results db).total
           ∧ (get_summary results db).total ≤ 2 * (get_summary results db).passed))
    ∧ (statusText (get_summary results db) = HealthStatus.UNHEALTHY
        ↔ 2 * (get_summary results db).passed < (get_summary results db).total) := by
  have hsum := get_summary_sum results db
  set s := get_summary results db with hs
  refine ⟨hsum, ?_, ?_, ?_⟩ <;>
    (unfold statusText; split_ifs with h1 h2 <;> simp <;> omega)

end DBHC
